import Mathlib

/-!
Shallow embedding of the Rustrelli Type D planet AI (`src/planet.rs`, `src/lib.rs`):
the fair-share admission controller and the explorer-message state machine.

Modelling conventions:
* `f32` scores and `SystemTime` timestamps become exact rationals (seconds).
* The handler runs at a single instant `now`; every `SystemTime::now()` call inside
  one invocation of `handle_explorer_msg` observes this same instant.
* `SystemTime::elapsed()` fails exactly when the stored timestamp lies in the future;
  the code's `unwrap_or(INACTIVE_TIMESPAN)` fallback is modelled in `elapsedSince`.
* The `HashMap<u32, StatsRecord>` becomes an association list; `HashMap` semantics
  (at most one entry per key) is mirrored by updating every entry with the key.
* The cell store, generator and combinator live in the external `common_game` crate
  (not part of this repository); they are modelled from the spec where needed.
-/

namespace Rustrelli

/-- Limiting modes for explorer generation requests (`ExplorerRequestLimit` in `lib.rs`):
`none` is `Unrestricted` (no limit), `fairShare` activates the admission controller. -/
inductive ExplorerRequestLimit
  | none
  | fairShare
deriving DecidableEq

/-- Statistics record for one explorer (`StatsRecord` in `planet.rs`):
usage `score` and the timestamp `last_req` of the latest generation request. -/
structure StatsRecord where
  score : ℚ
  last_req : ℚ
deriving DecidableEq

/-- Per-explorer usage map (`HashMap<u32, StatsRecord>` as an association list). -/
abbrev ExplorerStats := List (Nat × StatsRecord)

/-- The planet AI state (`struct AI` in `planet.rs`). -/
structure AI where
  explorer_stats : ExplorerStats
  limit_mode : ExplorerRequestLimit
deriving DecidableEq

/-- Contention window: 3 seconds (`AI::CONTENTION_WINDOW`). -/
def CONTENTION_WINDOW : ℚ := 3

/-- Score decay rate: 0.5 score units per second (`AI::DECAY_RATE`). -/
def DECAY_RATE : ℚ := 1 / 2

/-- Fallback elapsed time on clock error: one contention window (`AI::INACTIVE_TIMESPAN`). -/
def INACTIVE_TIMESPAN : ℚ := 3

/-- Allowed request burst: 3.0 (`AI::ALLOWED_REQ_BURST`). -/
def ALLOWED_REQ_BURST : ℚ := 3

/-- Elapsed seconds since timestamp `last` at instant `now`:
`last_req.elapsed().unwrap_or(Self::INACTIVE_TIMESPAN)`. `SystemTime::elapsed`
errors exactly when the timestamp lies in the future of `now`. -/
def elapsedSince (now last : ℚ) : ℚ :=
  if last ≤ now then now - last else INACTIVE_TIMESPAN

/-- Decay pass over all tracked explorers (`AI::decay_scores`):
each score becomes `max 0 (score - DECAY_RATE * elapsed)`. -/
def decay_scores (now : ℚ) (m : ExplorerStats) : ExplorerStats :=
  m.map fun e =>
    (e.1, { e.2 with score := max 0 (e.2.score - DECAY_RATE * elapsedSince now e.2.last_req) })

/-- Add the fixed request cost 1.0 to one explorer's score (`AI::add_req_cost`).
Like `entry().and_modify(..)`, it does nothing when the key is absent. -/
def add_req_cost (explorer_id : Nat) (m : ExplorerStats) : ExplorerStats :=
  m.map fun e => if e.1 = explorer_id then (e.1, { e.2 with score := e.2.score + 1 }) else e

/-- Current score of one explorer, when tracked (`AI::score`). -/
def scoreOf (explorer_id : Nat) (m : ExplorerStats) : Option ℚ :=
  (m.find? fun e => e.1 == explorer_id).map fun e => e.2.score

/-- Arithmetic mean of the scores of all tracked explorers (`AI::avg_score`).
On the empty map the source divides by zero in `f32` (NaN); in ℚ the quotient is 0.
The handler only consults the average when the map is nonempty. -/
def avg_score (m : ExplorerStats) : ℚ :=
  (m.map fun e => e.2.score).sum / (m.length : ℚ)

/-- Number of explorers whose elapsed time since `last_req` is strictly below the
contention window (`AI::active_explorers`). -/
def active_explorers (now : ℚ) (m : ExplorerStats) : Nat :=
  (m.filter fun e => decide (elapsedSince now e.2.last_req < CONTENTION_WINDOW)).length

/-- Record-touch step of the generation handler: insert the requester with a default
record (score 0, `last_req = now`) if absent, otherwise set its `last_req` to `now`
(`entry(explorer_id).and_modify(|s| s.last_req = now()).or_default()`). -/
def touch_entry (now : ℚ) (explorer_id : Nat) (m : ExplorerStats) : ExplorerStats :=
  if m.any fun e => e.1 == explorer_id then
    m.map fun e => if e.1 = explorer_id then (e.1, { e.2 with last_req := now }) else e
  else
    m ++ [(explorer_id, ⟨0, now⟩)]

/-! Resource value shapes from the external `common_game` crate. Their internal
structure is irrelevant to this component; each carries an opaque payload. -/

/-- Modelled from the spec: opaque hydrogen value produced by the recipe catalog. -/
structure Hydrogen where
  val : Nat
deriving DecidableEq

/-- Modelled from the spec: opaque oxygen value produced by the recipe catalog. -/
structure Oxygen where
  val : Nat
deriving DecidableEq

/-- Modelled from the spec: opaque carbon value produced by the recipe catalog. -/
structure Carbon where
  val : Nat
deriving DecidableEq

/-- Modelled from the spec: opaque silicon value produced by the recipe catalog. -/
structure Silicon where
  val : Nat
deriving DecidableEq

/-- Modelled from the spec: opaque water value (complex resource). -/
structure Water where
  val : Nat
deriving DecidableEq

/-- Modelled from the spec: opaque diamond value (complex resource). -/
structure Diamond where
  val : Nat
deriving DecidableEq

/-- Modelled from the spec: opaque life value (complex resource). -/
structure Life where
  val : Nat
deriving DecidableEq

/-- Modelled from the spec: opaque robot value (complex resource). -/
structure Robot where
  val : Nat
deriving DecidableEq

/-- Modelled from the spec: opaque dolphin value (complex resource). -/
structure Dolphin where
  val : Nat
deriving DecidableEq

/-- Modelled from the spec: opaque AI-partner value (complex resource). -/
structure AIPartner where
  val : Nat
deriving DecidableEq

/-- Basic resource categories (`BasicResourceType` in `common_game`), as used by
`make_basic_resource` and the Type D generation rules in `lib.rs`. -/
inductive BasicResourceType
  | Oxygen
  | Hydrogen
  | Carbon
  | Silicon
deriving DecidableEq

/-- Tagged basic resource values (`BasicResource` in `common_game`). -/
inductive BasicResource
  | Oxygen (v : Oxygen)
  | Hydrogen (v : Hydrogen)
  | Carbon (v : Carbon)
  | Silicon (v : Silicon)
deriving DecidableEq

/-- Tagged complex resource values (`ComplexResource` in `common_game`), as used by
`extract_generic_resources`. -/
inductive ComplexResource
  | Water (v : Water)
  | Diamond (v : Diamond)
  | Life (v : Life)
  | Robot (v : Robot)
  | Dolphin (v : Dolphin)
  | AIPartner (v : AIPartner)
deriving DecidableEq

/-- Either a basic or a complex resource (`GenericResource` in `common_game`). -/
inductive GenericResource
  | BasicResources (r : BasicResource)
  | ComplexResources (r : ComplexResource)
deriving DecidableEq

/-- Combination request shapes (`ComplexResourceRequest` in `common_game`): each
recipe names exactly two input resources, as matched by `extract_generic_resources`. -/
inductive ComplexResourceRequest
  | Water (h : Hydrogen) (o : Oxygen)
  | Diamond (c1 c2 : Carbon)
  | Life (w : Water) (c : Carbon)
  | Robot (s : Silicon) (l : Life)
  | Dolphin (w : Water) (l : Life)
  | AIPartner (r : Robot) (d : Diamond)
deriving DecidableEq

/-- Combination recipe categories advertised by the combinator catalog. -/
inductive ComplexResourceType
  | Water
  | Diamond
  | Life
  | Robot
  | Dolphin
  | AIPartner
deriving DecidableEq

/-- Inbound explorer messages (`ExplorerToPlanet` in `common_game`), with exactly the
five variants matched exhaustively (no wildcard arm) by `handle_explorer_msg`. -/
inductive ExplorerToPlanet
  | SupportedResourceRequest (explorer_id : Nat)
  | SupportedCombinationRequest (explorer_id : Nat)
  | GenerateResourceRequest (explorer_id : Nat) (resource : BasicResourceType)
  | CombineResourceRequest (explorer_id : Nat) (msg : ComplexResourceRequest)
  | AvailableEnergyCellRequest (explorer_id : Nat)
deriving DecidableEq

/-- Outbound planet responses (`PlanetToExplorer` in `common_game`), with the five
variants constructed by `handle_explorer_msg`. The combination response carries
`Result<ComplexResource, (String, GenericResource, GenericResource)>`. -/
inductive PlanetToExplorer
  | SupportedResourceResponse (resource_list : List BasicResourceType)
  | SupportedCombinationResponse (combination_list : List ComplexResourceType)
  | GenerateResourceResponse (resource : Option BasicResource)
  | CombineResourceResponse
      (complex_response : Except (String × GenericResource × GenericResource) ComplexResource)
  | AvailableEnergyCellResponse (available_cells : Nat)

/-- Modelled from the spec: the external cell store is a fixed-size ordered sequence of
cells, each charged (`true`) or empty (`false`); `state.full_cell()` (findChargedCell)
returns a handle to a charged cell, here the index of the first charged one. -/
def full_cell : List Bool → Option Nat
  | [] => Option.none
  | true :: _ => Option.some 0
  | false :: rest => (full_cell rest).map (· + 1)

/-- Modelled from the spec: synthesis invokes the matching catalog recipe on the charged
cell, producing the category-tagged value; the payload itself is opaque to this core. -/
def synthesize_value (resource : BasicResourceType) : BasicResource :=
  match resource with
  | BasicResourceType.Oxygen => BasicResource.Oxygen ⟨0⟩
  | BasicResourceType.Hydrogen => BasicResource.Hydrogen ⟨0⟩
  | BasicResourceType.Carbon => BasicResource.Carbon ⟨0⟩
  | BasicResourceType.Silicon => BasicResource.Silicon ⟨0⟩

/-- Generation helper (`make_basic_resource` in `planet.rs`): dispatches on the
requested category to the matching `generator.make_*` recipe, which consumes the
charge of the given cell and yields the tagged resource. The cell-discharge effect
of the external `generator.make_*` calls is modelled from the spec
("on success discharges exactly one cell"). -/
def make_basic_resource (resource : BasicResourceType) (cells : List Bool) (idx : Nat) :
    BasicResource × List Bool :=
  (synthesize_value resource, cells.set idx false)

/-- Decomposition of a refused combination request (`extract_generic_resources` in
`planet.rs`): each recipe shape maps to its two tagged constituents, in order. -/
def extract_generic_resources (request : ComplexResourceRequest) :
    GenericResource × GenericResource :=
  match request with
  | ComplexResourceRequest.Water h o =>
      (GenericResource.BasicResources (BasicResource.Hydrogen h),
       GenericResource.BasicResources (BasicResource.Oxygen o))
  | ComplexResourceRequest.Diamond c1 c2 =>
      (GenericResource.BasicResources (BasicResource.Carbon c1),
       GenericResource.BasicResources (BasicResource.Carbon c2))
  | ComplexResourceRequest.Life w c =>
      (GenericResource.ComplexResources (ComplexResource.Water w),
       GenericResource.BasicResources (BasicResource.Carbon c))
  | ComplexResourceRequest.Robot s l =>
      (GenericResource.BasicResources (BasicResource.Silicon s),
       GenericResource.ComplexResources (ComplexResource.Life l))
  | ComplexResourceRequest.Dolphin w l =>
      (GenericResource.ComplexResources (ComplexResource.Water w),
       GenericResource.ComplexResources (ComplexResource.Life l))
  | ComplexResourceRequest.AIPartner r d =>
      (GenericResource.ComplexResources (ComplexResource.Robot r),
       GenericResource.ComplexResources (ComplexResource.Diamond d))

/-- Result of one handler invocation: the optional response (the `Option` return of
`handle_explorer_msg`), the updated AI state, and the updated cell store. -/
structure HandleResult where
  response : Option PlanetToExplorer
  ai : AI
  cells : List Bool

/-- Refusal text returned for every combination request. -/
def refusal_reason : String := "This planet type can't combine resources."

/-- Fair-share admission pipeline state after the record touch, decay pass and cost
addition, exactly as `handle_explorer_msg` computes it for a generation request. -/
def fairshare_stats (now : ℚ) (explorer_id : Nat) (m : ExplorerStats) : ExplorerStats :=
  add_req_cost explorer_id (decay_scores now (touch_entry now explorer_id m))

/-- Grant condition of the admission controller, evaluated on the post-pipeline map
`stats2`: the requester is the sole active explorer, or its score (the source calls
`.unwrap()` on `score(explorer_id)`, which is always `Some` here, see
`scoreOf_fairshare_stats_isSome`) is within the dynamic tolerance of the average. -/
def fairshare_admitted (now : ℚ) (explorer_id : Nat) (stats2 : ExplorerStats) : Prop :=
  active_explorers now stats2 = 1 ∨
    (scoreOf explorer_id stats2).getD 0 ≤
      avg_score stats2 * (1 + ALLOWED_REQ_BURST / (active_explorers now stats2 : ℚ))

instance (now : ℚ) (explorer_id : Nat) (stats2 : ExplorerStats) :
    Decidable (fairshare_admitted now explorer_id stats2) := by
  unfold fairshare_admitted
  infer_instance

/-- The explorer-message handler (`PlanetAI::handle_explorer_msg` in `planet.rs`),
at instant `now`, with the generator's and combinator's advertised recipe lists and
the external cell store passed explicitly. -/
def handle_explorer_msg (ai : AI) (cells : List Bool) (genRecipes : List BasicResourceType)
    (combRecipes : List ComplexResourceType) (now : ℚ) (msg : ExplorerToPlanet) :
    HandleResult :=
  match msg with
  | ExplorerToPlanet.SupportedResourceRequest _ =>
      ⟨Option.some (PlanetToExplorer.SupportedResourceResponse genRecipes), ai, cells⟩
  | ExplorerToPlanet.SupportedCombinationRequest _ =>
      ⟨Option.some (PlanetToExplorer.SupportedCombinationResponse combRecipes), ai, cells⟩
  | ExplorerToPlanet.GenerateResourceRequest explorer_id resource =>
      match full_cell cells with
      | Option.some cellIdx =>
          match ai.limit_mode with
          | ExplorerRequestLimit.none =>
              let made := make_basic_resource resource cells cellIdx
              ⟨Option.some (PlanetToExplorer.GenerateResourceResponse (Option.some made.1)),
               ai, made.2⟩
          | ExplorerRequestLimit.fairShare =>
              let stats2 := fairshare_stats now explorer_id ai.explorer_stats
              if fairshare_admitted now explorer_id stats2
              then
                let made := make_basic_resource resource cells cellIdx
                ⟨Option.some (PlanetToExplorer.GenerateResourceResponse (Option.some made.1)),
                 ⟨stats2, ExplorerRequestLimit.fairShare⟩, made.2⟩
              else
                ⟨Option.some (PlanetToExplorer.GenerateResourceResponse Option.none),
                 ⟨stats2, ExplorerRequestLimit.fairShare⟩, cells⟩
      | Option.none =>
          ⟨Option.some (PlanetToExplorer.GenerateResourceResponse Option.none), ai, cells⟩
  | ExplorerToPlanet.CombineResourceRequest _ req =>
      let p := extract_generic_resources req
      ⟨Option.some (PlanetToExplorer.CombineResourceResponse
          (Except.error (refusal_reason, p.1, p.2))), ai, cells⟩
  | ExplorerToPlanet.AvailableEnergyCellRequest _ =>
      ⟨Option.some (PlanetToExplorer.AvailableEnergyCellResponse
          (cells.countP fun b => b)), ai, cells⟩

/-- Variant tags of the inbound explorer message type, one per constructor of
`ExplorerToPlanet`. -/
inductive ExplorerMsgKind
  | supportedResource
  | supportedCombination
  | generateResource
  | combineResource
  | availableEnergy
deriving DecidableEq, Fintype

/-- Variant tag of an inbound explorer message. -/
def msg_kind : ExplorerToPlanet → ExplorerMsgKind
  | ExplorerToPlanet.SupportedResourceRequest _ => ExplorerMsgKind.supportedResource
  | ExplorerToPlanet.SupportedCombinationRequest _ => ExplorerMsgKind.supportedCombination
  | ExplorerToPlanet.GenerateResourceRequest _ _ => ExplorerMsgKind.generateResource
  | ExplorerToPlanet.CombineResourceRequest _ _ => ExplorerMsgKind.combineResource
  | ExplorerToPlanet.AvailableEnergyCellRequest _ => ExplorerMsgKind.availableEnergy

/-- Variant tag of an outbound planet response, aligned with the tag of the
message variant it answers. -/
def response_kind : PlanetToExplorer → ExplorerMsgKind
  | PlanetToExplorer.SupportedResourceResponse _ => ExplorerMsgKind.supportedResource
  | PlanetToExplorer.SupportedCombinationResponse _ => ExplorerMsgKind.supportedCombination
  | PlanetToExplorer.GenerateResourceResponse _ => ExplorerMsgKind.generateResource
  | PlanetToExplorer.CombineResourceResponse _ => ExplorerMsgKind.combineResource
  | PlanetToExplorer.AvailableEnergyCellResponse _ => ExplorerMsgKind.availableEnergy

/-! Helper lemmas about the admission pipeline. -/

/-- After the record touch, the requester is tracked with `last_req = now`. -/
theorem touch_entry_mem (now : ℚ) (explorer_id : Nat) (m : ExplorerStats) :
    ∃ st : StatsRecord, (explorer_id, st) ∈ touch_entry now explorer_id m ∧
      st.last_req = now := by
  unfold touch_entry
  by_cases h : (m.any fun e => e.1 == explorer_id) = true
  · rw [if_pos h]
    obtain ⟨e, hem, hid⟩ := List.any_eq_true.mp h
    rw [beq_iff_eq] at hid
    refine ⟨{ e.2 with last_req := now }, ?_, rfl⟩
    have hmem := List.mem_map_of_mem
      (f := fun e => if e.1 = explorer_id then (e.1, { e.2 with last_req := now }) else e) hem
    simpa [hid] using hmem
  · rw [if_neg h]
    exact ⟨⟨0, now⟩, List.mem_append_right _ (List.mem_singleton.mpr rfl), rfl⟩

/-- After touch, decay and cost addition, the requester is tracked with
`last_req = now`. -/
theorem fairshare_stats_mem (now : ℚ) (explorer_id : Nat) (m : ExplorerStats) :
    ∃ st : StatsRecord, (explorer_id, st) ∈ fairshare_stats now explorer_id m ∧
      st.last_req = now := by
  obtain ⟨st, hmem, hlast⟩ := touch_entry_mem now explorer_id m
  unfold fairshare_stats decay_scores add_req_cost
  refine ⟨⟨max 0 (st.score - DECAY_RATE * elapsedSince now st.last_req) + 1,
    st.last_req⟩, ?_, hlast⟩
  have h1 := List.mem_map_of_mem
    (f := fun e => (e.1,
      { e.2 with score := max 0 (e.2.score - DECAY_RATE * elapsedSince now e.2.last_req) })) hmem
  have h2 := List.mem_map_of_mem
    (f := fun e => if e.1 = explorer_id then (e.1, { e.2 with score := e.2.score + 1 }) else e) h1
  simpa using h2

/-- The decision-time map is never empty. -/
theorem fairshare_stats_ne_nil (now : ℚ) (explorer_id : Nat) (m : ExplorerStats) :
    fairshare_stats now explorer_id m ≠ [] := by
  obtain ⟨st, hmem, _⟩ := fairshare_stats_mem now explorer_id m
  exact List.ne_nil_of_mem hmem

/-- At decision time at least one explorer (the requester) is active. -/
theorem active_explorers_fairshare_pos (now : ℚ) (explorer_id : Nat) (m : ExplorerStats) :
    0 < active_explorers now (fairshare_stats now explorer_id m) := by
  obtain ⟨st, hmem, hlast⟩ := fairshare_stats_mem now explorer_id m
  unfold active_explorers
  have hpred : decide (elapsedSince now st.last_req < CONTENTION_WINDOW) = true := by
    rw [hlast]
    simp [elapsedSince, CONTENTION_WINDOW]
  have hfil : (explorer_id, st) ∈ (fairshare_stats now explorer_id m).filter
      (fun e => decide (elapsedSince now e.2.last_req < CONTENTION_WINDOW)) :=
    List.mem_filter.mpr ⟨hmem, hpred⟩
  exact List.length_pos.mpr (List.ne_nil_of_mem hfil)

/-- The score lookup the source unwraps is always `Some` at decision time. -/
theorem scoreOf_fairshare_stats_isSome (now : ℚ) (explorer_id : Nat) (m : ExplorerStats) :
    (scoreOf explorer_id (fairshare_stats now explorer_id m)).isSome = true := by
  obtain ⟨st, hmem, _⟩ := fairshare_stats_mem now explorer_id m
  unfold scoreOf
  simp only [Option.isSome_map', List.find?_isSome]
  exact ⟨(explorer_id, st), hmem, by simp⟩

/-- Score lookup after the cost addition: the requester's score grows by exactly 1. -/
theorem scoreOf_add_req_cost (explorer_id : Nat) (m : ExplorerStats) :
    scoreOf explorer_id (add_req_cost explorer_id m) =
      (scoreOf explorer_id m).map (· + 1) := by
  induction m with
  | nil => rfl
  | cons e rest ih =>
    by_cases h : e.1 = explorer_id
    · simp [add_req_cost, scoreOf, List.find?_cons, h]
    · simp only [add_req_cost, scoreOf, List.map_cons] at *
      rw [if_neg h]
      rw [List.find?_cons, List.find?_cons]
      have hbeq : (e.1 == explorer_id) = false := beq_eq_false_iff_ne.mpr h
      simp only [hbeq]
      exact ih

/-- Score lookup after the decay pass, in terms of the pre-decay record. -/
theorem scoreOf_decay_scores (now : ℚ) (explorer_id : Nat) (m : ExplorerStats) :
    scoreOf explorer_id (decay_scores now m) =
      (m.find? fun e => e.1 == explorer_id).map
        (fun e => max 0 (e.2.score - DECAY_RATE * elapsedSince now e.2.last_req)) := by
  induction m with
  | nil => rfl
  | cons e rest ih =>
    by_cases h : (e.1 == explorer_id) = true
    · simp [decay_scores, scoreOf, List.find?_cons, h]
    · have hb : (e.1 == explorer_id) = false := by
        cases hval : (e.1 == explorer_id) with
        | false => rfl
        | true => exact absurd hval h
      simp only [decay_scores, scoreOf, List.map_cons] at *
      rw [List.find?_cons, List.find?_cons]
      simp only [hb]
      exact ih

/-- A charged-cell handle returned by `full_cell` indexes a charged cell. -/
theorem full_cell_charged : ∀ (cells : List Bool) (idx : Nat),
    full_cell cells = Option.some idx → cells[idx]? = Option.some true := by
  intro cells
  induction cells with
  | nil => intro idx h; simp [full_cell] at h
  | cons b rest ih =>
    intro idx h
    cases b with
    | true =>
      simp only [full_cell, Option.some.injEq] at h
      subst h
      simp
    | false =>
      simp only [full_cell, Option.map_eq_some'] at h
      obtain ⟨j, hj, hidx⟩ := h
      subst hidx
      simpa using ih j hj

/-- Discharging a charged cell lowers the charged-cell count by exactly one. -/
theorem countP_set_false : ∀ (cells : List Bool) (idx : Nat),
    cells[idx]? = Option.some true →
    (cells.set idx false).countP (fun b => b) + 1 = cells.countP (fun b => b) := by
  intro cells
  induction cells with
  | nil => intro idx h; simp at h
  | cons b rest ih =>
    intro idx h
    cases idx with
    | zero =>
      simp only [List.getElem?_cons_zero, Option.some.injEq] at h
      subst h
      simp [List.set, List.countP_cons]
    | succ j =>
      simp only [List.getElem?_cons_succ] at h
      have := ih j h
      simp only [List.set, List.countP_cons]
      omega

/-- Elapsed time is never negative, also through the clock-error fallback. -/
theorem elapsedSince_nonneg (now last : ℚ) : 0 ≤ elapsedSince now last := by
  unfold elapsedSince INACTIVE_TIMESPAN
  split
  · linarith
  · norm_num

/-- Every score is nonnegative right after the decay pass. -/
theorem decay_scores_nonneg (now : ℚ) (m : ExplorerStats) :
    ∀ e ∈ decay_scores now m, 0 ≤ e.2.score := by
  intro e he
  obtain ⟨a, _, rfl⟩ := List.mem_map.mp he
  exact le_max_left 0 _

/-- Every score is nonnegative after the whole touch/decay/cost pipeline. -/
theorem fairshare_stats_nonneg (now : ℚ) (explorer_id : Nat) (m : ExplorerStats) :
    ∀ e ∈ fairshare_stats now explorer_id m, 0 ≤ e.2.score := by
  intro e he
  obtain ⟨a, ha, rfl⟩ := List.mem_map.mp he
  have h0 : 0 ≤ a.2.score := decay_scores_nonneg now _ a ha
  by_cases h : a.1 = explorer_id
  · rw [if_pos h]
    show 0 ≤ a.2.score + 1
    linarith
  · rw [if_neg h]
    exact h0

/-- Reduction of the generation handler: FairShare mode with a charged cell. -/
theorem handle_generate_fairShare (ai : AI) (cells : List Bool)
    (genRecipes : List BasicResourceType) (combRecipes : List ComplexResourceType)
    (now : ℚ) (explorer_id : Nat) (resource : BasicResourceType) (cellIdx : Nat)
    (hmode : ai.limit_mode = ExplorerRequestLimit.fairShare)
    (hcell : full_cell cells = Option.some cellIdx) :
    handle_explorer_msg ai cells genRecipes combRecipes now
        (ExplorerToPlanet.GenerateResourceRequest explorer_id resource) =
      if fairshare_admitted now explorer_id (fairshare_stats now explorer_id ai.explorer_stats)
      then ⟨Option.some (PlanetToExplorer.GenerateResourceResponse
              (Option.some (synthesize_value resource))),
            ⟨fairshare_stats now explorer_id ai.explorer_stats, ExplorerRequestLimit.fairShare⟩,
            cells.set cellIdx false⟩
      else ⟨Option.some (PlanetToExplorer.GenerateResourceResponse Option.none),
            ⟨fairshare_stats now explorer_id ai.explorer_stats, ExplorerRequestLimit.fairShare⟩,
            cells⟩ := by
  unfold handle_explorer_msg
  rw [hcell, hmode]
  rfl

/-- Reduction of the generation handler: Unrestricted mode with a charged cell. -/
theorem handle_generate_unrestricted (ai : AI) (cells : List Bool)
    (genRecipes : List BasicResourceType) (combRecipes : List ComplexResourceType)
    (now : ℚ) (explorer_id : Nat) (resource : BasicResourceType) (cellIdx : Nat)
    (hmode : ai.limit_mode = ExplorerRequestLimit.none)
    (hcell : full_cell cells = Option.some cellIdx) :
    handle_explorer_msg ai cells genRecipes combRecipes now
        (ExplorerToPlanet.GenerateResourceRequest explorer_id resource) =
      ⟨Option.some (PlanetToExplorer.GenerateResourceResponse
          (Option.some (synthesize_value resource))), ai, cells.set cellIdx false⟩ := by
  unfold handle_explorer_msg
  rw [hcell, hmode]
  rfl

/-- Reduction of the generation handler: no charged cell. -/
theorem handle_generate_no_cell (ai : AI) (cells : List Bool)
    (genRecipes : List BasicResourceType) (combRecipes : List ComplexResourceType)
    (now : ℚ) (explorer_id : Nat) (resource : BasicResourceType)
    (hcell : full_cell cells = Option.none) :
    handle_explorer_msg ai cells genRecipes combRecipes now
        (ExplorerToPlanet.GenerateResourceRequest explorer_id resource) =
      ⟨Option.some (PlanetToExplorer.GenerateResourceResponse Option.none), ai, cells⟩ := by
  unfold handle_explorer_msg
  rw [hcell]

/-! Claim theorems. -/

/-- C1: In FairShare mode, for every generation request that finds a charged cell,
after the record-touch, decay pass and cost addition, the request is granted iff the
number of active explorers equals 1, or the requester's score is at most the
arithmetic mean of all tracked explorers' scores times `1 + 3.0 / activeCount`. -/
theorem fairShare_grant_iff (ai : AI) (cells : List Bool)
    (genRecipes : List BasicResourceType) (combRecipes : List ComplexResourceType)
    (now : ℚ) (explorer_id : Nat) (resource : BasicResourceType) (cellIdx : Nat) (s : ℚ)
    (hmode : ai.limit_mode = ExplorerRequestLimit.fairShare)
    (hcell : full_cell cells = Option.some cellIdx)
    (hscore : scoreOf explorer_id (fairshare_stats now explorer_id ai.explorer_stats) =
      Option.some s) :
    (handle_explorer_msg ai cells genRecipes combRecipes now
        (ExplorerToPlanet.GenerateResourceRequest explorer_id resource)).response =
      Option.some (PlanetToExplorer.GenerateResourceResponse
        (Option.some (synthesize_value resource))) ↔
    (active_explorers now (fairshare_stats now explorer_id ai.explorer_stats) = 1 ∨
      s ≤ (((fairshare_stats now explorer_id ai.explorer_stats).map fun e =>
              e.2.score).sum /
            ((fairshare_stats now explorer_id ai.explorer_stats).length : ℚ)) *
          (1 + 3 /
            (active_explorers now (fairshare_stats now explorer_id ai.explorer_stats) : ℚ))) := by
  rw [handle_generate_fairShare ai cells genRecipes combRecipes now explorer_id resource
    cellIdx hmode hcell]
  have hcond : fairshare_admitted now explorer_id
      (fairshare_stats now explorer_id ai.explorer_stats) ↔
      (active_explorers now (fairshare_stats now explorer_id ai.explorer_stats) = 1 ∨
        s ≤ (((fairshare_stats now explorer_id ai.explorer_stats).map fun e =>
                e.2.score).sum /
              ((fairshare_stats now explorer_id ai.explorer_stats).length : ℚ)) *
            (1 + 3 /
              (active_explorers now
                (fairshare_stats now explorer_id ai.explorer_stats) : ℚ))) := by
    unfold fairshare_admitted avg_score ALLOWED_REQ_BURST
    rw [hscore]
    rfl
  by_cases hadm : fairshare_admitted now explorer_id
      (fairshare_stats now explorer_id ai.explorer_stats)
  · rw [if_pos hadm]
    exact iff_of_true rfl (hcond.mp hadm)
  · rw [if_neg hadm]
    refine iff_of_false ?_ (fun hr => hadm (hcond.mpr hr))
    intro h
    simp only [Option.some.injEq, PlanetToExplorer.GenerateResourceResponse.injEq] at h
    exact Option.noConfusion h

/-- C1 witness: concrete granted request in FairShare mode (sole active explorer). -/
theorem fairShare_grant_iff_witness :
    (handle_explorer_msg ⟨[], ExplorerRequestLimit.fairShare⟩ [true] [] [] 0
        (ExplorerToPlanet.GenerateResourceRequest 7 BasicResourceType.Oxygen)).response =
      Option.some (PlanetToExplorer.GenerateResourceResponse
        (Option.some (synthesize_value BasicResourceType.Oxygen))) := by
  have hstats : fairshare_stats 0 7 ([] : ExplorerStats) = [(7, ⟨1, 0⟩)] := by
    norm_num [fairshare_stats, touch_entry, decay_scores, add_req_cost, elapsedSince,
      DECAY_RATE]
  have hscore : scoreOf 7 (fairshare_stats 0 7 ([] : ExplorerStats)) = Option.some 1 := by
    rw [hstats]
    simp [scoreOf, List.find?]
  have hactive : active_explorers 0 (fairshare_stats 0 7 ([] : ExplorerStats)) = 1 := by
    rw [hstats]
    norm_num [active_explorers, elapsedSince, CONTENTION_WINDOW, List.filter]
  have h := fairShare_grant_iff ⟨[], ExplorerRequestLimit.fairShare⟩ [true] [] [] 0 7
    BasicResourceType.Oxygen 0 1 rfl rfl hscore
  exact h.mpr (Or.inl hactive)

/-- C2: At decision time the requester always counts as active, hence
`activeCount ≥ 1`, the tolerance division never divides by zero, and the average
score is never taken over an empty map. -/
theorem fairShare_active_count_positive (now : ℚ) (explorer_id : Nat) (m : ExplorerStats) :
    1 ≤ active_explorers now (fairshare_stats now explorer_id m) ∧
    ((active_explorers now (fairshare_stats now explorer_id m) : ℚ) ≠ 0) ∧
    fairshare_stats now explorer_id m ≠ [] := by
  have hpos := active_explorers_fairshare_pos now explorer_id m
  refine ⟨hpos, ?_, fairshare_stats_ne_nil now explorer_id m⟩
  exact_mod_cast Nat.pos_iff_ne_zero.mp hpos

/-- C3: a generation request answers with the same "no resource" response value both
when no cell is charged (any mode) and when admission is denied under FairShare; the
two causes are observationally indistinguishable. -/
theorem no_resource_indistinguishable (ai : AI) (cells : List Bool)
    (genRecipes : List BasicResourceType) (combRecipes : List ComplexResourceType)
    (now : ℚ) (explorer_id : Nat) (resource : BasicResourceType) (cellIdx : Nat) :
    (full_cell cells = Option.none →
      (handle_explorer_msg ai cells genRecipes combRecipes now
        (ExplorerToPlanet.GenerateResourceRequest explorer_id resource)).response =
        Option.some (PlanetToExplorer.GenerateResourceResponse Option.none)) ∧
    (ai.limit_mode = ExplorerRequestLimit.fairShare →
      full_cell cells = Option.some cellIdx →
      ¬ fairshare_admitted now explorer_id
          (fairshare_stats now explorer_id ai.explorer_stats) →
      (handle_explorer_msg ai cells genRecipes combRecipes now
        (ExplorerToPlanet.GenerateResourceRequest explorer_id resource)).response =
        Option.some (PlanetToExplorer.GenerateResourceResponse Option.none)) := by
  constructor
  · intro hcell
    rw [handle_generate_no_cell ai cells genRecipes combRecipes now explorer_id resource hcell]
  · intro hmode hcell hdeny
    rw [handle_generate_fairShare ai cells genRecipes combRecipes now explorer_id resource
      cellIdx hmode hcell]
    rw [if_neg hdeny]

/-- C3 witness: a request against zero charged cells and a concretely denied FairShare
request produce the identical "no resource" response. -/
theorem no_resource_indistinguishable_witness :
    (handle_explorer_msg ⟨[], ExplorerRequestLimit.none⟩ [false, false] [] [] 0
        (ExplorerToPlanet.GenerateResourceRequest 7 BasicResourceType.Oxygen)).response =
      Option.some (PlanetToExplorer.GenerateResourceResponse Option.none) ∧
    (handle_explorer_msg ⟨[(1, ⟨10, 10⟩), (2, ⟨0, 10⟩), (3, ⟨0, 10⟩)],
        ExplorerRequestLimit.fairShare⟩ [true] [] [] 10
        (ExplorerToPlanet.GenerateResourceRequest 1 BasicResourceType.Oxygen)).response =
      Option.some (PlanetToExplorer.GenerateResourceResponse Option.none) := by
  constructor
  · exact (no_resource_indistinguishable ⟨[], ExplorerRequestLimit.none⟩ [false, false]
      [] [] 0 7 BasicResourceType.Oxygen 0).1 rfl
  · refine (no_resource_indistinguishable ⟨[(1, ⟨10, 10⟩), (2, ⟨0, 10⟩), (3, ⟨0, 10⟩)],
      ExplorerRequestLimit.fairShare⟩ [true] [] [] 10 1 BasicResourceType.Oxygen 0).2
      rfl rfl ?_
    have hstats : fairshare_stats 10 1 [(1, ⟨10, 10⟩), (2, ⟨0, 10⟩), (3, ⟨0, 10⟩)] =
        [(1, ⟨11, 10⟩), (2, ⟨0, 10⟩), (3, ⟨0, 10⟩)] := by
      norm_num [fairshare_stats, touch_entry, decay_scores, add_req_cost, elapsedSince,
        DECAY_RATE]
    show ¬ fairshare_admitted 10 1
      (fairshare_stats 10 1 [(1, ⟨10, 10⟩), (2, ⟨0, 10⟩), (3, ⟨0, 10⟩)])
    rw [hstats]
    norm_num [fairshare_admitted, active_explorers, elapsedSince, CONTENTION_WINDOW,
      List.filter, scoreOf, List.find?, avg_score, ALLOWED_REQ_BURST]

/-- C4: a denied FairShare generation request leaves the cell store unchanged and the
chosen cell charged; a granted one discharges exactly the chosen cell. -/
theorem deny_preserves_cells (ai : AI) (cells : List Bool)
    (genRecipes : List BasicResourceType) (combRecipes : List ComplexResourceType)
    (now : ℚ) (explorer_id : Nat) (resource : BasicResourceType) (cellIdx : Nat)
    (hmode : ai.limit_mode = ExplorerRequestLimit.fairShare)
    (hcell : full_cell cells = Option.some cellIdx) :
    (¬ fairshare_admitted now explorer_id
        (fairshare_stats now explorer_id ai.explorer_stats) →
      (handle_explorer_msg ai cells genRecipes combRecipes now
        (ExplorerToPlanet.GenerateResourceRequest explorer_id resource)).cells = cells ∧
      cells[cellIdx]? = Option.some true) ∧
    (fairshare_admitted now explorer_id
        (fairshare_stats now explorer_id ai.explorer_stats) →
      (handle_explorer_msg ai cells genRecipes combRecipes now
        (ExplorerToPlanet.GenerateResourceRequest explorer_id resource)).cells =
        cells.set cellIdx false ∧
      (handle_explorer_msg ai cells genRecipes combRecipes now
        (ExplorerToPlanet.GenerateResourceRequest explorer_id resource)).cells.countP
          (fun b => b) + 1 = cells.countP (fun b => b)) := by
  rw [handle_generate_fairShare ai cells genRecipes combRecipes now explorer_id resource
    cellIdx hmode hcell]
  constructor
  · intro hdeny
    rw [if_neg hdeny]
    exact ⟨rfl, full_cell_charged cells cellIdx hcell⟩
  · intro hadm
    rw [if_pos hadm]
    exact ⟨rfl, countP_set_false cells cellIdx (full_cell_charged cells cellIdx hcell)⟩

/-- C4 witness: a concretely denied request leaves the single charged cell intact; a
concretely granted request discharges it, lowering the charged count by one. -/
theorem deny_preserves_cells_witness :
    ((handle_explorer_msg ⟨[(1, ⟨10, 10⟩), (2, ⟨0, 10⟩), (3, ⟨0, 10⟩)],
        ExplorerRequestLimit.fairShare⟩ [true] [] [] 10
        (ExplorerToPlanet.GenerateResourceRequest 1 BasicResourceType.Oxygen)).cells =
        [true] ∧
      ([true] : List Bool)[0]? = Option.some true) ∧
    ((handle_explorer_msg ⟨[], ExplorerRequestLimit.fairShare⟩ [true] [] [] 0
        (ExplorerToPlanet.GenerateResourceRequest 7 BasicResourceType.Oxygen)).cells =
        ([true] : List Bool).set 0 false ∧
      (handle_explorer_msg ⟨[], ExplorerRequestLimit.fairShare⟩ [true] [] [] 0
        (ExplorerToPlanet.GenerateResourceRequest 7 BasicResourceType.Oxygen)).cells.countP
          (fun b => b) + 1 = ([true] : List Bool).countP (fun b => b)) := by
  constructor
  · refine (deny_preserves_cells ⟨[(1, ⟨10, 10⟩), (2, ⟨0, 10⟩), (3, ⟨0, 10⟩)],
      ExplorerRequestLimit.fairShare⟩ [true] [] [] 10 1 BasicResourceType.Oxygen 0
      rfl rfl).1 ?_
    have hstats : fairshare_stats 10 1 [(1, ⟨10, 10⟩), (2, ⟨0, 10⟩), (3, ⟨0, 10⟩)] =
        [(1, ⟨11, 10⟩), (2, ⟨0, 10⟩), (3, ⟨0, 10⟩)] := by
      norm_num [fairshare_stats, touch_entry, decay_scores, add_req_cost, elapsedSince,
        DECAY_RATE]
    show ¬ fairshare_admitted 10 1
      (fairshare_stats 10 1 [(1, ⟨10, 10⟩), (2, ⟨0, 10⟩), (3, ⟨0, 10⟩)])
    rw [hstats]
    norm_num [fairshare_admitted, active_explorers, elapsedSince, CONTENTION_WINDOW,
      List.filter, scoreOf, List.find?, avg_score, ALLOWED_REQ_BURST]
  · refine (deny_preserves_cells ⟨[], ExplorerRequestLimit.fairShare⟩ [true] [] [] 0 7
      BasicResourceType.Oxygen 0 rfl rfl).2 ?_
    have hstats : fairshare_stats 0 7 ([] : ExplorerStats) = [(7, ⟨1, 0⟩)] := by
      norm_num [fairshare_stats, touch_entry, decay_scores, add_req_cost, elapsedSince,
        DECAY_RATE]
    refine Or.inl ?_
    show active_explorers 0 (fairshare_stats 0 7 ([] : ExplorerStats)) = 1
    rw [hstats]
    norm_num [active_explorers, elapsedSince, CONTENTION_WINDOW, List.filter]

/-- C5: in FairShare mode every generation request that finds a charged cell adds
exactly 1.0 to the requester's (post-decay) score, granted or denied: the handler's
final map is the pipeline map, in which the requester's score is the decayed score
plus one. -/
theorem request_cost_applied (ai : AI) (cells : List Bool)
    (genRecipes : List BasicResourceType) (combRecipes : List ComplexResourceType)
    (now : ℚ) (explorer_id : Nat) (resource : BasicResourceType) (cellIdx : Nat) (s : ℚ)
    (hmode : ai.limit_mode = ExplorerRequestLimit.fairShare)
    (hcell : full_cell cells = Option.some cellIdx)
    (hdec : scoreOf explorer_id (decay_scores now (touch_entry now explorer_id
      ai.explorer_stats)) = Option.some s) :
    (handle_explorer_msg ai cells genRecipes combRecipes now
      (ExplorerToPlanet.GenerateResourceRequest explorer_id resource)).ai.explorer_stats =
      fairshare_stats now explorer_id ai.explorer_stats ∧
    scoreOf explorer_id (fairshare_stats now explorer_id ai.explorer_stats) =
      Option.some (s + 1) := by
  constructor
  · rw [handle_generate_fairShare ai cells genRecipes combRecipes now explorer_id resource
      cellIdx hmode hcell]
    split
    · rfl
    · rfl
  · unfold fairshare_stats
    rw [scoreOf_add_req_cost, hdec]
    rfl

/-- C5 witness: a first-time requester starts at score 0 after the decay pass and ends
at exactly 1 after the cost addition. -/
theorem request_cost_applied_witness :
    (handle_explorer_msg ⟨[], ExplorerRequestLimit.fairShare⟩ [true] [] [] 0
        (ExplorerToPlanet.GenerateResourceRequest 7 BasicResourceType.Oxygen)).ai.explorer_stats =
      fairshare_stats 0 7 [] ∧
    scoreOf 7 (fairshare_stats 0 7 []) = Option.some (0 + 1) :=
  request_cost_applied ⟨[], ExplorerRequestLimit.fairShare⟩ [true] [] [] 0 7
    BasicResourceType.Oxygen 0 0 rfl rfl
    (by norm_num [touch_entry, decay_scores, elapsedSince, DECAY_RATE, scoreOf, List.find?])

/-- C6: sole-user exemption: with exactly one active explorer, every FairShare
generation request that finds a charged cell is granted, regardless of scores. -/
theorem sole_active_explorer_granted (ai : AI) (cells : List Bool)
    (genRecipes : List BasicResourceType) (combRecipes : List ComplexResourceType)
    (now : ℚ) (explorer_id : Nat) (resource : BasicResourceType) (cellIdx : Nat)
    (hmode : ai.limit_mode = ExplorerRequestLimit.fairShare)
    (hcell : full_cell cells = Option.some cellIdx)
    (hactive : active_explorers now (fairshare_stats now explorer_id ai.explorer_stats) = 1) :
    (handle_explorer_msg ai cells genRecipes combRecipes now
        (ExplorerToPlanet.GenerateResourceRequest explorer_id resource)).response =
      Option.some (PlanetToExplorer.GenerateResourceResponse
        (Option.some (synthesize_value resource))) := by
  rw [handle_generate_fairShare ai cells genRecipes combRecipes now explorer_id resource
    cellIdx hmode hcell]
  have hadm : fairshare_admitted now explorer_id
      (fairshare_stats now explorer_id ai.explorer_stats) := Or.inl hactive
  rw [if_pos hadm]

/-- C6 witness: an explorer with an arbitrarily large accumulated score is still
granted when it is the only active explorer. -/
theorem sole_active_explorer_granted_witness :
    (handle_explorer_msg ⟨[(7, ⟨1000, 50⟩)], ExplorerRequestLimit.fairShare⟩ [true] [] [] 50
        (ExplorerToPlanet.GenerateResourceRequest 7 BasicResourceType.Carbon)).response =
      Option.some (PlanetToExplorer.GenerateResourceResponse
        (Option.some (synthesize_value BasicResourceType.Carbon))) := by
  refine sole_active_explorer_granted ⟨[(7, ⟨1000, 50⟩)], ExplorerRequestLimit.fairShare⟩
    [true] [] [] 50 7 BasicResourceType.Carbon 0 rfl rfl ?_
  have hstats : fairshare_stats 50 7 [(7, ⟨1000, 50⟩)] = [(7, ⟨1001, 50⟩)] := by
    norm_num [fairshare_stats, touch_entry, decay_scores, add_req_cost, elapsedSince,
      DECAY_RATE]
  show active_explorers 50 (fairshare_stats 50 7 [(7, ⟨1000, 50⟩)]) = 1
  rw [hstats]
  norm_num [active_explorers, elapsedSince, CONTENTION_WINDOW, List.filter]

/-- C7: scores are nonnegative and stay so under every operation: the decay pass maps
each score to `max 0 (score - 0.5 * elapsed)`, its output is nonnegative, elapsed time
alone never increases a score, and the handler preserves nonnegativity of all scores. -/
theorem score_nonneg_invariant (now : ℚ) (m : ExplorerStats) :
    (decay_scores now m = m.map fun e =>
      (e.1, ⟨max 0 (e.2.score - DECAY_RATE * elapsedSince now e.2.last_req),
        e.2.last_req⟩)) ∧
    (∀ e ∈ decay_scores now m, 0 ≤ e.2.score) ∧
    (∀ (explorer_id : Nat) (s s' : ℚ), 0 ≤ s →
      scoreOf explorer_id m = Option.some s →
      scoreOf explorer_id (decay_scores now m) = Option.some s' →
      0 ≤ s' ∧ s' ≤ s) ∧
    (∀ (ai : AI) (cells : List Bool) (genRecipes : List BasicResourceType)
      (combRecipes : List ComplexResourceType) (msg : ExplorerToPlanet),
      ai.explorer_stats = m → (∀ e ∈ m, 0 ≤ e.2.score) →
      ∀ e ∈ (handle_explorer_msg ai cells genRecipes combRecipes now msg).ai.explorer_stats,
        0 ≤ e.2.score) := by
  refine ⟨rfl, decay_scores_nonneg now m, ?_, ?_⟩
  · intro explorer_id s s' hs hm hm'
    rw [scoreOf_decay_scores] at hm'
    unfold scoreOf at hm
    cases hfind : (m.find? fun e => e.1 == explorer_id) with
    | none =>
      rw [hfind] at hm
      exact absurd hm (by simp)
    | some a =>
      rw [hfind] at hm hm'
      simp only [Option.map_some', Option.some.injEq] at hm hm'
      subst hm
      subst hm'
      refine ⟨le_max_left 0 _, max_le hs ?_⟩
      exact sub_le_self _ (mul_nonneg (by norm_num [DECAY_RATE])
        (elapsedSince_nonneg now a.2.last_req))
  · intro ai cells genRecipes combRecipes msg hst hnn e he
    cases msg with
    | SupportedResourceRequest i =>
      have he' : e ∈ ai.explorer_stats := he
      rw [hst] at he'
      exact hnn e he'
    | SupportedCombinationRequest i =>
      have he' : e ∈ ai.explorer_stats := he
      rw [hst] at he'
      exact hnn e he'
    | GenerateResourceRequest i r =>
      cases hfc : full_cell cells with
      | none =>
        rw [handle_generate_no_cell ai cells genRecipes combRecipes now i r hfc] at he
        have he' : e ∈ ai.explorer_stats := he
        rw [hst] at he'
        exact hnn e he'
      | some idx =>
        cases hlm : ai.limit_mode with
        | none =>
          rw [handle_generate_unrestricted ai cells genRecipes combRecipes now i r idx
            hlm hfc] at he
          have he' : e ∈ ai.explorer_stats := he
          rw [hst] at he'
          exact hnn e he'
        | fairShare =>
          rw [handle_generate_fairShare ai cells genRecipes combRecipes now i r idx
            hlm hfc] at he
          by_cases hadm : fairshare_admitted now i (fairshare_stats now i ai.explorer_stats)
          · rw [if_pos hadm] at he
            exact fairshare_stats_nonneg now i ai.explorer_stats e he
          · rw [if_neg hadm] at he
            exact fairshare_stats_nonneg now i ai.explorer_stats e he
    | CombineResourceRequest i req =>
      have he' : e ∈ ai.explorer_stats := he
      rw [hst] at he'
      exact hnn e he'
    | AvailableEnergyCellRequest i =>
      have he' : e ∈ ai.explorer_stats := he
      rw [hst] at he'
      exact hnn e he'

/-- C7 witness: an explorer with score 5 idle for 6 seconds decays to exactly
`max 0 (5 - 0.5 * 6) = 2`, which is nonnegative and no larger than 5. -/
theorem score_nonneg_invariant_witness : (0 : ℚ) ≤ 2 ∧ (2 : ℚ) ≤ 5 :=
  (score_nonneg_invariant 10 [(1, ⟨5, 4⟩)]).2.2.1 1 5 2 (by norm_num)
    (by simp [scoreOf, List.find?])
    (by norm_num [decay_scores, scoreOf, List.find?, elapsedSince, DECAY_RATE])

/-- C8: every combination request is refused with a structured refusal carrying the
human-readable reason and, for each of the six recipe shapes, exactly the two original
inputs, correctly tagged and in submission order, with no catch-all default. -/
theorem combination_always_refused :
    (∀ (ai : AI) (cells : List Bool) (genRecipes : List BasicResourceType)
      (combRecipes : List ComplexResourceType) (now : ℚ) (explorer_id : Nat)
      (req : ComplexResourceRequest),
      (handle_explorer_msg ai cells genRecipes combRecipes now
        (ExplorerToPlanet.CombineResourceRequest explorer_id req)).response =
        Option.some (PlanetToExplorer.CombineResourceResponse (Except.error
          (refusal_reason, (extract_generic_resources req).1,
            (extract_generic_resources req).2)))) ∧
    (∀ h o, extract_generic_resources (ComplexResourceRequest.Water h o) =
      (GenericResource.BasicResources (BasicResource.Hydrogen h),
       GenericResource.BasicResources (BasicResource.Oxygen o))) ∧
    (∀ c1 c2, extract_generic_resources (ComplexResourceRequest.Diamond c1 c2) =
      (GenericResource.BasicResources (BasicResource.Carbon c1),
       GenericResource.BasicResources (BasicResource.Carbon c2))) ∧
    (∀ w c, extract_generic_resources (ComplexResourceRequest.Life w c) =
      (GenericResource.ComplexResources (ComplexResource.Water w),
       GenericResource.BasicResources (BasicResource.Carbon c))) ∧
    (∀ s l, extract_generic_resources (ComplexResourceRequest.Robot s l) =
      (GenericResource.BasicResources (BasicResource.Silicon s),
       GenericResource.ComplexResources (ComplexResource.Life l))) ∧
    (∀ w l, extract_generic_resources (ComplexResourceRequest.Dolphin w l) =
      (GenericResource.ComplexResources (ComplexResource.Water w),
       GenericResource.ComplexResources (ComplexResource.Life l))) ∧
    (∀ r d, extract_generic_resources (ComplexResourceRequest.AIPartner r d) =
      (GenericResource.ComplexResources (ComplexResource.Robot r),
       GenericResource.ComplexResources (ComplexResource.Diamond d))) :=
  ⟨fun _ _ _ _ _ _ _ => rfl, fun _ _ => rfl, fun _ _ => rfl, fun _ _ => rfl,
   fun _ _ => rfl, fun _ _ => rfl, fun _ _ => rfl⟩

/-- C9: in Unrestricted mode a generation request that finds a charged cell is always
granted, the AI state (including the usage map) is untouched, and neither the response
nor the resulting cells depend on the usage map's contents. -/
theorem unrestricted_skips_accounting (ai : AI) (cells : List Bool)
    (genRecipes : List BasicResourceType) (combRecipes : List ComplexResourceType)
    (now : ℚ) (explorer_id : Nat) (resource : BasicResourceType) (cellIdx : Nat)
    (hmode : ai.limit_mode = ExplorerRequestLimit.none)
    (hcell : full_cell cells = Option.some cellIdx) :
    (handle_explorer_msg ai cells genRecipes combRecipes now
        (ExplorerToPlanet.GenerateResourceRequest explorer_id resource)).response =
      Option.some (PlanetToExplorer.GenerateResourceResponse
        (Option.some (synthesize_value resource))) ∧
    (handle_explorer_msg ai cells genRecipes combRecipes now
        (ExplorerToPlanet.GenerateResourceRequest explorer_id resource)).ai = ai ∧
    (handle_explorer_msg ai cells genRecipes combRecipes now
        (ExplorerToPlanet.GenerateResourceRequest explorer_id resource)).cells =
      cells.set cellIdx false ∧
    (∀ m1 m2 : ExplorerStats,
      (handle_explorer_msg ⟨m1, ExplorerRequestLimit.none⟩ cells genRecipes combRecipes now
        (ExplorerToPlanet.GenerateResourceRequest explorer_id resource)).response =
      (handle_explorer_msg ⟨m2, ExplorerRequestLimit.none⟩ cells genRecipes combRecipes now
        (ExplorerToPlanet.GenerateResourceRequest explorer_id resource)).response ∧
      (handle_explorer_msg ⟨m1, ExplorerRequestLimit.none⟩ cells genRecipes combRecipes now
        (ExplorerToPlanet.GenerateResourceRequest explorer_id resource)).cells =
      (handle_explorer_msg ⟨m2, ExplorerRequestLimit.none⟩ cells genRecipes combRecipes now
        (ExplorerToPlanet.GenerateResourceRequest explorer_id resource)).cells) := by
  rw [handle_generate_unrestricted ai cells genRecipes combRecipes now explorer_id resource
    cellIdx hmode hcell]
  refine ⟨rfl, rfl, rfl, ?_⟩
  intro m1 m2
  rw [handle_generate_unrestricted ⟨m1, ExplorerRequestLimit.none⟩ cells genRecipes
    combRecipes now explorer_id resource cellIdx rfl hcell]
  rw [handle_generate_unrestricted ⟨m2, ExplorerRequestLimit.none⟩ cells genRecipes
    combRecipes now explorer_id resource cellIdx rfl hcell]
  exact ⟨rfl, rfl⟩

/-- C9 witness: with a nonempty usage map and one charged cell, the Unrestricted mode
grants the request, leaves the AI state untouched, and only discharges the cell. -/
theorem unrestricted_skips_accounting_witness :
    (handle_explorer_msg ⟨[(3, ⟨9, 0⟩)], ExplorerRequestLimit.none⟩ [true] [] [] 5
        (ExplorerToPlanet.GenerateResourceRequest 7 BasicResourceType.Silicon)).response =
      Option.some (PlanetToExplorer.GenerateResourceResponse
        (Option.some (synthesize_value BasicResourceType.Silicon))) ∧
    (handle_explorer_msg ⟨[(3, ⟨9, 0⟩)], ExplorerRequestLimit.none⟩ [true] [] [] 5
        (ExplorerToPlanet.GenerateResourceRequest 7 BasicResourceType.Silicon)).ai =
      ⟨[(3, ⟨9, 0⟩)], ExplorerRequestLimit.none⟩ ∧
    (handle_explorer_msg ⟨[(3, ⟨9, 0⟩)], ExplorerRequestLimit.none⟩ [true] [] [] 5
        (ExplorerToPlanet.GenerateResourceRequest 7 BasicResourceType.Silicon)).cells =
      ([true] : List Bool).set 0 false ∧
    (∀ m1 m2 : ExplorerStats,
      (handle_explorer_msg ⟨m1, ExplorerRequestLimit.none⟩ [true] [] [] 5
        (ExplorerToPlanet.GenerateResourceRequest 7 BasicResourceType.Silicon)).response =
      (handle_explorer_msg ⟨m2, ExplorerRequestLimit.none⟩ [true] [] [] 5
        (ExplorerToPlanet.GenerateResourceRequest 7 BasicResourceType.Silicon)).response ∧
      (handle_explorer_msg ⟨m1, ExplorerRequestLimit.none⟩ [true] [] [] 5
        (ExplorerToPlanet.GenerateResourceRequest 7 BasicResourceType.Silicon)).cells =
      (handle_explorer_msg ⟨m2, ExplorerRequestLimit.none⟩ [true] [] [] 5
        (ExplorerToPlanet.GenerateResourceRequest 7 BasicResourceType.Silicon)).cells) :=
  unrestricted_skips_accounting ⟨[(3, ⟨9, 0⟩)], ExplorerRequestLimit.none⟩ [true] [] [] 5 7
    BasicResourceType.Silicon 0 rfl rfl

/-- C10 (amended to five variants): for every inbound explorer message the handler
returns `Some` response of the matching variant, never `None`; the five message-kind
tags exhaust the message type and number exactly five. -/
theorem handler_always_responds_matching_variant :
    (∀ (ai : AI) (cells : List Bool) (genRecipes : List BasicResourceType)
      (combRecipes : List ComplexResourceType) (now : ℚ) (msg : ExplorerToPlanet),
      ∃ resp : PlanetToExplorer,
        (handle_explorer_msg ai cells genRecipes combRecipes now msg).response =
          Option.some resp ∧ response_kind resp = msg_kind msg) ∧
    Function.Surjective msg_kind ∧ Fintype.card ExplorerMsgKind = 5 := by
  refine ⟨?_, ?_, rfl⟩
  · intro ai cells genRecipes combRecipes now msg
    cases msg with
    | SupportedResourceRequest i => exact ⟨_, rfl, rfl⟩
    | SupportedCombinationRequest i => exact ⟨_, rfl, rfl⟩
    | GenerateResourceRequest i r =>
      cases hfc : full_cell cells with
      | none =>
        rw [handle_generate_no_cell ai cells genRecipes combRecipes now i r hfc]
        exact ⟨_, rfl, rfl⟩
      | some idx =>
        cases hlm : ai.limit_mode with
        | none =>
          rw [handle_generate_unrestricted ai cells genRecipes combRecipes now i r idx
            hlm hfc]
          exact ⟨_, rfl, rfl⟩
        | fairShare =>
          rw [handle_generate_fairShare ai cells genRecipes combRecipes now i r idx
            hlm hfc]
          by_cases hadm : fairshare_admitted now i (fairshare_stats now i ai.explorer_stats)
          · rw [if_pos hadm]
            exact ⟨_, rfl, rfl⟩
          · rw [if_neg hadm]
            exact ⟨_, rfl, rfl⟩
    | CombineResourceRequest i req => exact ⟨_, rfl, rfl⟩
    | AvailableEnergyCellRequest i => exact ⟨_, rfl, rfl⟩
  · intro k
    cases k with
    | supportedResource => exact ⟨ExplorerToPlanet.SupportedResourceRequest 0, rfl⟩
    | supportedCombination => exact ⟨ExplorerToPlanet.SupportedCombinationRequest 0, rfl⟩
    | generateResource =>
      exact ⟨ExplorerToPlanet.GenerateResourceRequest 0 BasicResourceType.Oxygen, rfl⟩
    | combineResource =>
      exact ⟨ExplorerToPlanet.CombineResourceRequest 0
        (ComplexResourceRequest.Water ⟨0⟩ ⟨0⟩), rfl⟩
    | availableEnergy => exact ⟨ExplorerToPlanet.AvailableEnergyCellRequest 0, rfl⟩

/-- C10 counterexample: the inbound explorer message type has exactly five variants,
not six as the claim counts. -/
theorem explorer_msg_not_six_variants :
    Fintype.card ExplorerMsgKind = 5 ∧ Fintype.card ExplorerMsgKind ≠ 6 := by
  constructor
  · rfl
  · intro h
    rw [show Fintype.card ExplorerMsgKind = 5 from rfl] at h
    exact absurd h (by norm_num)

end Rustrelli
